import Mathlib

/-
Shallow embedding of the sale transaction and analytics core of the
multi-category retail system (Express server, POST /api/sales and
GET /api/analytics/sales, plus the Billing page's pricing block).

Modelling conventions:
* monetary values are `Rat` (the JS code manipulates decimal numbers;
  all amounts in the verified statements are exact in `Rat`);
* identifiers, quantities and stock are `Int` (stock may go negative,
  which is exactly what some statements are about);
* `createdAt` timestamps are `Int` instants (the code stores ISO strings
  and compares them through `new Date`, a total order on instants);
* the two `writeDataFile` calls of the sales handler are given success
  oracles, since a file write may throw: a failed write leaves its file
  unchanged and the handler answers 500.
-/

namespace Retail

/-- A product record, as stored in data/products.json. -/
structure Product where
  id : Int
  name : String
  sku : String
  categoryId : Int
  price : Rat
  stock : Int
  reorderPoint : Int
  description : String
  lastUpdated : String
deriving DecidableEq

/-- A category record, as stored in data/categories.json. -/
structure Category where
  id : Int
  name : String
  description : String
  status : String
deriving DecidableEq

/-- One line of the caller-supplied `items` array of POST /api/sales. -/
structure CartItem where
  productId : Int
  quantity : Int
deriving DecidableEq

/-- A line item captured into a committed sale (the `saleItems.push`
payload of the sales handler). -/
structure SaleItem where
  productId : Int
  productName : String
  sku : String
  price : Rat
  quantity : Int
  total : Rat
deriving DecidableEq

/-- A committed sale record (the `newSale` object of the sales handler). -/
structure Sale where
  id : Int
  items : List SaleItem
  subtotal : Rat
  discount : Rat
  tax : Rat
  total : Rat
  paymentMethod : String
  customerName : String
  cashierId : Int
  cashierName : String
  createdAt : Int
deriving DecidableEq

/-- The authenticated request user (`req.user`), as placed by the JWT
middleware. -/
structure Identity where
  id : Int
  username : String
  role : String
deriving DecidableEq

/-- The request body of POST /api/sales after destructuring; `discount`
and `tax` are the optional absolute amounts, defaulted to 0 when the
caller omits them. -/
structure SaleRequest where
  items : List CartItem
  paymentMethod : String
  customerName : Option String
  discount : Rat
  tax : Rat
deriving DecidableEq

/-- The express-validator chain of POST /api/sales: `items` must be an
array (any list is, including the empty one), each `quantity` an integer
at least 1, `paymentMethod` non-empty, `discount` and `tax` optional
numbers at least 0. Each `productId` must be an integer, which the field
type already guarantees. -/
def validSaleRequest (req : SaleRequest) : Bool :=
  req.items.all (fun i => decide (1 ≤ i.quantity)) &&
  !(req.paymentMethod == "") &&
  decide (0 ≤ req.discount) && decide (0 ≤ req.tax)

/-- The distinct 400-level rejections the sales handler can produce:
the validator failure, `Product with ID x not found`, and
`Insufficient stock for name` (the message interpolates the product
name and nothing else). -/
inductive SaleError where
  | validationFailed
  | productNotFound (productId : Int)
  | insufficientStock (productName : String)
deriving DecidableEq

/-- The validate-and-price loop of the sales handler: resolve each cart
line against the in-memory product list (`products.find`, first match),
reject when the product is absent or `product.stock < item.quantity`,
otherwise capture a `SaleItem` with `itemTotal = price * quantity` and
accumulate the subtotal. The first offending line wins, as in the early
returns of the loop. -/
def priceItems (products : List Product) : List CartItem → Except SaleError (Rat × List SaleItem)
  | [] => .ok (0, [])
  | item :: rest =>
    match products.find? (fun p => p.id == item.productId) with
    | none => .error (.productNotFound item.productId)
    | some product =>
      if product.stock < item.quantity then
        .error (.insufficientStock product.name)
      else
        match priceItems products rest with
        | .error e => .error e
        | .ok (sub, its) =>
          let itemTotal := product.price * (item.quantity : Rat)
          .ok (itemTotal + sub,
            ⟨product.id, product.name, product.sku, product.price, item.quantity, itemTotal⟩ :: its)

/-- One step of the stock update loop: `products.findIndex` locates the
first product with the line's id and its stock is decremented and its
`lastUpdated` stamped. -/
def applyLine (nowStr : String) (ps : List Product) (item : CartItem) : List Product :=
  match ps with
  | [] => []
  | p :: rest =>
    if p.id == item.productId then
      { p with stock := p.stock - item.quantity, lastUpdated := nowStr } :: rest
    else
      p :: applyLine nowStr rest item

/-- The stock update loop of the sales handler, one `applyLine` per cart
line in order. -/
def decrementStock (nowStr : String) (products : List Product) (items : List CartItem) : List Product :=
  items.foldl (applyLine nowStr) products

/-- `Math.max(...sales.map(s => s.id), 0)`. -/
def maxSaleId (sales : List Sale) : Int :=
  (sales.map Sale.id).foldl max 0

/-- The persistent JSON files the sales routes read and write. -/
structure Disk where
  products : List Product
  sales : List Sale
deriving DecidableEq

/-- The observable outcome of POST /api/sales: 201 with the new sale,
400 with one of the rejection messages, or 500 when a write throws. -/
inductive SaleResponse where
  | created (sale : Sale)
  | badRequest (e : SaleError)
  | serverError
deriving DecidableEq

/-- Whether a response is the 201 success case. -/
def SaleResponse.isCreated : SaleResponse → Bool
  | .created _ => true
  | _ => false

/-- POST /api/sales. `okProducts` and `okSales` say whether each of the
two sequential `writeDataFile` calls (products.json first, sales.json
second) succeeds; a throw is caught and answered with 500, but the
products.json write has already been persisted when the sales.json
write fails. -/
def postSale (disk : Disk) (req : SaleRequest) (user : Identity)
    (now : Int) (nowStr : String) (okProducts okSales : Bool) :
    SaleResponse × Disk :=
  if !validSaleRequest req then (.badRequest .validationFailed, disk)
  else
    match priceItems disk.products req.items with
    | .error e => (.badRequest e, disk)
    | .ok (subtotal, saleItems) =>
      let total := subtotal - req.discount + req.tax
      let newSale : Sale :=
        { id := maxSaleId disk.sales + 1
          items := saleItems
          subtotal := subtotal
          discount := req.discount
          tax := req.tax
          total := total
          paymentMethod := req.paymentMethod
          customerName := req.customerName.getD "Walk-in Customer"
          cashierId := user.id
          cashierName := user.username
          createdAt := now }
      let newProducts := decrementStock nowStr disk.products req.items
      if okProducts then
        if okSales then (.created newSale, ⟨newProducts, disk.sales ++ [newSale]⟩)
        else (.serverError, ⟨newProducts, disk.sales⟩)
      else (.serverError, disk)

/-- A cart row of the Billing page, with `total` maintained as
`quantity * price` by the cart operations. -/
structure BillingCartItem where
  productId : Int
  productName : String
  sku : String
  price : Rat
  quantity : Int
  total : Rat
deriving DecidableEq

/-- `cart.reduce((sum, item) => sum + item.total, 0)` of the Billing page. -/
def billingSubtotal (cart : List BillingCartItem) : Rat :=
  (cart.map BillingCartItem.total).foldl (· + ·) 0

/-- `(subtotal * discountPercent) / 100` of the Billing page. -/
def discountAmount (subtotal discountPercent : Rat) : Rat :=
  subtotal * discountPercent / 100

/-- `subtotal - discountAmount` of the Billing page. -/
def taxableAmount (subtotal discountPercent : Rat) : Rat :=
  subtotal - discountAmount subtotal discountPercent

/-- `(taxableAmount * taxPercent) / 100` of the Billing page. -/
def taxAmount (subtotal discountPercent taxPercent : Rat) : Rat :=
  taxableAmount subtotal discountPercent * taxPercent / 100

/-- `taxableAmount + taxAmount` of the Billing page. -/
def billingTotal (subtotal discountPercent taxPercent : Rat) : Rat :=
  taxableAmount subtotal discountPercent + taxAmount subtotal discountPercent taxPercent

/-- The request body built by the Billing page's submit handler: the
cart lines reduced to id and quantity, the customer name defaulted, and
the computed absolute `discountAmount` and `taxAmount` sent as the
`discount` and `tax` fields. -/
def billingSaleRequest (cart : List BillingCartItem) (customerName : Option String)
    (pm : String) (discountPercent taxPercent : Rat) : SaleRequest :=
  { items := cart.map (fun i => ⟨i.productId, i.quantity⟩)
    paymentMethod := pm
    customerName := some (customerName.getD "Walk-in Customer")
    discount := discountAmount (billingSubtotal cart) discountPercent
    tax := taxAmount (billingSubtotal cart) discountPercent taxPercent }

/-- The date filter of GET /api/analytics/sales: only when both query
bounds are present does the handler keep the sales with
`saleDate >= new Date(startDate) && saleDate <= new Date(endDate)`;
otherwise the whole history is used. -/
def filterSales (sales : List Sale) (startDate endDate : Option Int) : List Sale :=
  match startDate, endDate with
  | some s, some e =>
    sales.filter (fun sale => decide (s ≤ sale.createdAt) && decide (sale.createdAt ≤ e))
  | _, _ => sales

/-- `filteredSales.reduce((sum, sale) => sum + sale.total, 0)`. -/
def totalSales (filtered : List Sale) : Rat :=
  (filtered.map Sale.total).foldl (· + ·) 0

/-- `filteredSales.length`. -/
def totalTransactions (filtered : List Sale) : Nat :=
  filtered.length

/-- `salesByCategory[category.name] = (salesByCategory[category.name] || 0) + item.total`
on a JS object keyed by the category name: string keys enumerate in
insertion order, so the association list keeps first-seen order and a
present key is updated in place. -/
def bumpCategory (m : List (String × Rat)) (name : String) (amount : Rat) : List (String × Rat) :=
  match m with
  | [] => [(name, amount)]
  | (k, v) :: rest =>
    if k == name then (k, v + amount) :: rest
    else (k, v) :: bumpCategory rest name amount

/-- One line item's contribution to `salesByCategory`: resolve the
product by id against the current product list, then its category by id;
when either lookup misses, the item contributes nothing. -/
def categoryStep (products : List Product) (categories : List Category)
    (m : List (String × Rat)) (item : SaleItem) : List (String × Rat) :=
  match products.find? (fun p => p.id == item.productId) with
  | none => m
  | some product =>
    match categories.find? (fun c => c.id == product.categoryId) with
    | none => m
    | some category => bumpCategory m category.name item.total

/-- The item stream of the two nested forEach loops of the analytics
handler: every line item of every filtered sale, in order. -/
def itemsOf (filtered : List Sale) : List SaleItem :=
  (filtered.map Sale.items).flatten

/-- The `salesByCategory` accumulation of GET /api/analytics/sales. -/
def salesByCategory (products : List Product) (categories : List Category)
    (filtered : List Sale) : List (String × Rat) :=
  (itemsOf filtered).foldl (categoryStep products categories) []

/-- The per-product accumulator value of `productSales`. -/
structure ProductAgg where
  productName : String
  quantity : Int
  total : Rat
deriving DecidableEq

/-- The `productSales[item.productId]` accumulation: the JS object is
keyed by the integer product ids, and `Object.entries` later enumerates
such integer-like keys in ascending numeric order, so the association
list is kept sorted by key; a present key accumulates quantity and
total, an absent one is inserted with the item's captured name. -/
def bumpProduct (m : List (Int × ProductAgg)) (item : SaleItem) : List (Int × ProductAgg) :=
  match m with
  | [] => [(item.productId, ⟨item.productName, item.quantity, item.total⟩)]
  | (k, v) :: rest =>
    if k == item.productId then
      (k, ⟨v.productName, v.quantity + item.quantity, v.total + item.total⟩) :: rest
    else if item.productId < k then
      (item.productId, ⟨item.productName, item.quantity, item.total⟩) :: (k, v) :: rest
    else
      (k, v) :: bumpProduct rest item

/-- The `productSales` accumulation over every line item of every
filtered sale. -/
def productSales (filtered : List Sale) : List (Int × ProductAgg) :=
  (itemsOf filtered).foldl bumpProduct []

/-- The comparator order of `.sort(([, a], [, b]) => b.quantity - a.quantity)`:
an entry precedes another when its accumulated quantity is at least as
large. -/
def qOrder (a b : Int × ProductAgg) : Prop :=
  b.2.quantity ≤ a.2.quantity

instance : DecidableRel qOrder := fun _ _ => inferInstanceAs (Decidable (_ ≤ _))

instance : IsTotal (Int × ProductAgg) qOrder :=
  ⟨fun a b => le_total b.2.quantity a.2.quantity⟩

instance : IsTrans (Int × ProductAgg) qOrder :=
  ⟨fun _ _ _ h1 h2 => le_trans h2 h1⟩

/-- `Array.prototype.sort` with the quantity comparator. The ECMAScript
spec requires the sort to be stable, and a stable sort for a total
preorder has a unique result, so the insertion sort below computes
exactly the engine's output. -/
def sortByQuantityDesc (l : List (Int × ProductAgg)) : List (Int × ProductAgg) :=
  List.insertionSort qOrder l

/-- `Object.entries(productSales).sort(...).slice(0, 10)` of the
analytics handler (each entry carries its productId key and the
accumulated display name, quantity and total). -/
def topProducts (filtered : List Sale) : List (Int × ProductAgg) :=
  (sortByQuantityDesc (productSales filtered)).take 10

/-- The response body of GET /api/analytics/sales. -/
structure AnalyticsResult where
  totalSales : Rat
  totalTransactions : Nat
  salesByCategory : List (String × Rat)
  topProducts : List (Int × ProductAgg)
deriving DecidableEq

/-- GET /api/analytics/sales. -/
def aggregate (products : List Product) (categories : List Category)
    (sales : List Sale) (startDate endDate : Option Int) : AnalyticsResult :=
  let filtered := filterSales sales startDate endDate
  { totalSales := totalSales filtered
    totalTransactions := totalTransactions filtered
    salesByCategory := salesByCategory products categories filtered
    topProducts := topProducts filtered }

/-- Concrete product for the scenario statements: id 1, price 10.00,
stock 5. -/
def productA : Product :=
  { id := 1, name := "Widget", sku := "W1", categoryId := 1, price := 10,
    stock := 5, reorderPoint := 1, description := "", lastUpdated := "t0" }

/-- The Scenario B product: same as `productA` but stock 2. -/
def productB : Product := { productA with stock := 2 }

/-- A variant with stock 1, used to compare error payloads. -/
def productB1 : Product := { productA with stock := 1 }

/-- A product with a different id but the same display name, used to
compare error payloads. -/
def productNine : Product := { productA with id := 9, stock := 1 }

/-- The authenticated cashier of the scenario statements. -/
def cashier : Identity := { id := 2, username := "cashier", role := "CASHIER" }

/-- The Scenario A cart as built by the Billing page: one row of
product 1 at quantity 3, row total 3 * 10.00. -/
def cartA : List BillingCartItem := [⟨1, "Widget", "W1", 10, 3, 30⟩]

/-- The sale Scenario A commits. -/
def saleA : Sale :=
  { id := 1, items := [⟨1, "Widget", "W1", 10, 3, 30⟩], subtotal := 30,
    discount := 3, tax := 1.35, total := 28.35, paymentMethod := "cash",
    customerName := "Walk-in Customer", cashierId := 2, cashierName := "cashier",
    createdAt := 100 }

/-- The sale committed by a plain one-line cart of product 1 at
quantity 3 with no discount and no tax. -/
def saleSimple : Sale :=
  { id := 1, items := [⟨1, "Widget", "W1", 10, 3, 30⟩], subtotal := 30,
    discount := 0, tax := 0, total := 30, paymentMethod := "cash",
    customerName := "Walk-in Customer", cashierId := 2, cashierName := "cashier",
    createdAt := 100 }

/-- A one-item historical sale used to instantiate the analytics
statements. -/
def saleW : Sale :=
  { id := 1, items := [⟨7, "Gadget", "G7", 2, 3, 6⟩], subtotal := 6,
    discount := 0, tax := 0, total := 6, paymentMethod := "cash",
    customerName := "Walk-in Customer", cashierId := 2, cashierName := "cashier",
    createdAt := 100 }

/-- Specification helper: the (quantity, total) accumulated for a product
id by an association list of per-product aggregates. -/
def aggOf (m : List (Int × ProductAgg)) (pid : Int) : Int × Rat :=
  ((m.filter (fun kv => kv.1 == pid)).map (fun kv => (kv.2.quantity, kv.2.total))).sum

/-- Specification helper: the (quantity, total) a product id receives
from a stream of sale line items. -/
def lineSum (pid : Int) (items : List SaleItem) : Int × Rat :=
  ((items.filter (fun i => i.productId == pid)).map (fun i => (i.quantity, i.total))).sum

end Retail

namespace Retail

lemma foldl_max_init_le (l : List Int) (a : Int) : a ≤ l.foldl max a := by
  induction l generalizing a with
  | nil => simp
  | cons x xs ih => exact le_trans (le_max_left a x) (ih (max a x))

lemma le_foldl_max (l : List Int) (a x : Int) (hx : x ∈ l) : x ≤ l.foldl max a := by
  induction l generalizing a with
  | nil => cases hx
  | cons y ys ih =>
    rcases List.mem_cons.mp hx with rfl | h
    · exact le_trans (le_max_right a x) (foldl_max_init_le ys (max a x))
    · exact ih (max a y) h

lemma le_maxSaleId (sales : List Sale) (s : Sale) (hs : s ∈ sales) :
    s.id ≤ maxSaleId sales :=
  le_foldl_max (sales.map Sale.id) 0 s.id (List.mem_map_of_mem Sale.id hs)

lemma aggOf_nil (pid : Int) : aggOf [] pid = 0 := rfl

lemma aggOf_cons (k : Int) (v : ProductAgg) (rest : List (Int × ProductAgg)) (pid : Int) :
    aggOf ((k, v) :: rest) pid
      = (if k = pid then ((v.quantity, v.total) : Int × Rat) else 0) + aggOf rest pid := by
  by_cases h : k = pid <;> simp [aggOf, List.filter_cons, h]

lemma aggOf_bumpProduct (m : List (Int × ProductAgg)) (item : SaleItem) (pid : Int) :
    aggOf (bumpProduct m item) pid
      = aggOf m pid + (if item.productId = pid then ((item.quantity, item.total) : Int × Rat) else 0) := by
  induction m with
  | nil =>
    by_cases h : item.productId = pid <;>
      simp [bumpProduct, aggOf_cons, aggOf_nil, h]
  | cons kv rest ih =>
    obtain ⟨k, v⟩ := kv
    by_cases hk : k = item.productId
    · subst hk
      simp only [bumpProduct, beq_self_eq_true, if_true]
      rw [aggOf_cons, aggOf_cons]
      by_cases hp : item.productId = pid
      · rw [if_pos hp, if_pos hp, if_pos hp]
        have hmk : ((v.quantity + item.quantity, v.total + item.total) : Int × Rat)
            = (v.quantity, v.total) + (item.quantity, item.total) := rfl
        rw [hmk]
        abel
      · rw [if_neg hp, if_neg hp, if_neg hp]
        abel
    · have hk2 : (k == item.productId) = false := by simp [hk]
      by_cases hlt : item.productId < k
      · simp only [bumpProduct, hk2, Bool.false_eq_true, if_false, if_pos hlt]
        rw [aggOf_cons, aggOf_cons]
        dsimp only
        abel
      · simp only [bumpProduct, hk2, Bool.false_eq_true, if_false, if_neg hlt]
        rw [aggOf_cons, aggOf_cons, ih]
        abel

lemma aggOf_foldl (items : List SaleItem) (m : List (Int × ProductAgg)) (pid : Int) :
    aggOf (items.foldl bumpProduct m) pid = aggOf m pid + lineSum pid items := by
  induction items generalizing m with
  | nil => simp [lineSum]
  | cons it rest ih =>
    simp only [List.foldl_cons]
    rw [ih, aggOf_bumpProduct]
    by_cases h : it.productId = pid <;>
      simp [lineSum, List.filter_cons, h] <;> abel

lemma bumpProduct_key_mem (m : List (Int × ProductAgg)) (item : SaleItem) :
    ∀ kv ∈ bumpProduct m item, (∃ c ∈ m, kv.1 = c.1) ∨ kv.1 = item.productId := by
  induction m with
  | nil =>
    intro kv hkv
    simp [bumpProduct] at hkv
    subst hkv
    right
    rfl
  | cons hd rest ih =>
    obtain ⟨k, v⟩ := hd
    intro kv hkv
    by_cases hk : k = item.productId
    · subst hk
      simp only [bumpProduct, beq_self_eq_true, if_true] at hkv
      rcases List.mem_cons.mp hkv with rfl | htail
      · exact Or.inl ⟨(item.productId, v), List.mem_cons_self _ _, rfl⟩
      · exact Or.inl ⟨_, List.mem_cons_of_mem _ htail, rfl⟩
    · have hk2 : (k == item.productId) = false := by simp [hk]
      by_cases hlt : item.productId < k
      · simp only [bumpProduct, hk2, Bool.false_eq_true, if_false, if_pos hlt] at hkv
        rcases List.mem_cons.mp hkv with rfl | htail
        · exact Or.inr rfl
        · rcases List.mem_cons.mp htail with rfl | htail2
          · exact Or.inl ⟨_, List.mem_cons_self _ _, rfl⟩
          · exact Or.inl ⟨_, List.mem_cons_of_mem _ htail2, rfl⟩
      · simp only [bumpProduct, hk2, Bool.false_eq_true, if_false, if_neg hlt] at hkv
        rcases List.mem_cons.mp hkv with rfl | htail
        · exact Or.inl ⟨_, List.mem_cons_self _ _, rfl⟩
        · rcases ih _ htail with ⟨c, hc, hceq⟩ | hid
          · exact Or.inl ⟨c, List.mem_cons_of_mem _ hc, hceq⟩
          · exact Or.inr hid

lemma keysSorted_bumpProduct (m : List (Int × ProductAgg)) (item : SaleItem)
    (h : List.Pairwise (fun a b : Int × ProductAgg => a.1 < b.1) m) :
    List.Pairwise (fun a b : Int × ProductAgg => a.1 < b.1) (bumpProduct m item) := by
  induction m with
  | nil => simp [bumpProduct]
  | cons hd rest ih =>
    obtain ⟨k, v⟩ := hd
    rcases List.pairwise_cons.mp h with ⟨hk, hrest⟩
    by_cases he : k = item.productId
    · subst he
      simp only [bumpProduct, beq_self_eq_true, if_true]
      exact List.pairwise_cons.mpr ⟨hk, hrest⟩
    · have hk2 : (k == item.productId) = false := by simp [he]
      by_cases hlt : item.productId < k
      · simp only [bumpProduct, hk2, Bool.false_eq_true, if_false, if_pos hlt]
        refine List.pairwise_cons.mpr ⟨?_, List.pairwise_cons.mpr ⟨hk, hrest⟩⟩
        intro b hb
        rcases List.mem_cons.mp hb with rfl | htail
        · exact hlt
        · exact lt_trans hlt (hk b htail)
      · simp only [bumpProduct, hk2, Bool.false_eq_true, if_false, if_neg hlt]
        refine List.pairwise_cons.mpr ⟨?_, ih hrest⟩
        intro b hb
        rcases bumpProduct_key_mem rest item b hb with ⟨c, hc, hceq⟩ | hid
        · rw [hceq]
          exact hk c hc
        · rw [hid]
          omega

lemma keysSorted_foldl (items : List SaleItem) (m : List (Int × ProductAgg))
    (h : List.Pairwise (fun a b : Int × ProductAgg => a.1 < b.1) m) :
    List.Pairwise (fun a b : Int × ProductAgg => a.1 < b.1) (items.foldl bumpProduct m) := by
  induction items generalizing m with
  | nil => exact h
  | cons it rest ih => exact ih _ (keysSorted_bumpProduct m it h)

lemma aggOf_eq_zero (m : List (Int × ProductAgg)) (pid : Int)
    (h : ∀ c ∈ m, c.1 ≠ pid) : aggOf m pid = 0 := by
  induction m with
  | nil => rfl
  | cons c rest ih =>
    obtain ⟨k, v⟩ := c
    have h1 : k ≠ pid := h (k, v) (List.mem_cons_self _ _)
    have h2 : ∀ c ∈ rest, c.1 ≠ pid := fun c hc => h c (List.mem_cons_of_mem _ hc)
    rw [aggOf_cons, if_neg h1, zero_add, ih h2]

lemma aggOf_of_mem (m : List (Int × ProductAgg)) (pid : Int) (agg : ProductAgg)
    (hm : (pid, agg) ∈ m)
    (hnd : List.Pairwise (fun a b : Int × ProductAgg => a.1 ≠ b.1) m) :
    aggOf m pid = (agg.quantity, agg.total) := by
  induction m with
  | nil => cases hm
  | cons c rest ih =>
    obtain ⟨k, v⟩ := c
    rcases List.pairwise_cons.mp hnd with ⟨hne, hrest⟩
    rcases List.mem_cons.mp hm with heq | htail
    · have hkp : k = pid := (congrArg Prod.fst heq.symm : _)
      have hvv : v = agg := (congrArg Prod.snd heq.symm : _)
      subst hkp
      subst hvv
      have hz : ∀ c ∈ rest, c.1 ≠ k := by
        intro c hc
        exact fun hcq => (hne c hc) hcq.symm
      rw [aggOf_cons, if_pos rfl, aggOf_eq_zero rest k hz, add_zero]
    · have hk : k ≠ pid := hne (pid, agg) htail
      rw [aggOf_cons, if_neg hk, zero_add, ih htail hrest]

/-- Evaluation of the sales handler on a plain one-line cart of product 1
at quantity 3 with no discount and no tax: the commit is accepted, stock
drops to 2 and `saleSimple` is appended. -/
lemma postSale_simple_eq :
    postSale ⟨[productA], []⟩ ⟨[⟨1, 3⟩], "cash", none, 0, 0⟩ cashier 100 "t1" true true
      = (.created saleSimple,
         ⟨[{ productA with stock := 2, lastUpdated := "t1" }], [saleSimple]⟩) := by
  have hcash : ¬(("cash" : String) = "") := by decide
  norm_num [postSale, validSaleRequest, priceItems, decrementStock, applyLine, maxSaleId,
    productA, cashier, saleSimple, hcash, Sale.mk.injEq, Product.mk.injEq]

end Retail

namespace Retail

/-- Claim C1: the spec requires `stock >= 0` after every accepted commit
and demands that a commit whose lines in aggregate overdraw a product
fail with InsufficientStock, leaving stock unchanged. The handler checks
each cart line separately against the same in-memory snapshot, so a cart
holding two lines for product 1 of quantity 3 each passes validation
against stock 5, is committed, and leaves the persisted stock at -1 with
the sale recorded: the invariant the per-line check tries to enforce is
broken by duplicate-line carts. -/
theorem duplicate_cart_lines_drive_stock_negative :
    (postSale ⟨[productA], []⟩ ⟨[⟨1, 3⟩, ⟨1, 3⟩], "cash", none, 0, 0⟩ cashier 100 "t1" true true).1.isCreated = true ∧
    (postSale ⟨[productA], []⟩ ⟨[⟨1, 3⟩, ⟨1, 3⟩], "cash", none, 0, 0⟩ cashier 100 "t1" true true).2.products.map Product.stock = [-1] ∧
    (postSale ⟨[productA], []⟩ ⟨[⟨1, 3⟩, ⟨1, 3⟩], "cash", none, 0, 0⟩ cashier 100 "t1" true true).2.sales.length = 1 := by
  have hcash : ¬(("cash" : String) = "") := by decide
  norm_num [hcash, postSale, validSaleRequest, priceItems, decrementStock, applyLine,
    maxSaleId, productA, cashier, SaleResponse.isCreated]

/-- Claim C2 counterexample: a commit of a cart with zero line items does
not fail — the validators accept an empty `items` array, the handler's
loops run zero times, and a sale record is appended, so state is
mutated. -/
theorem empty_cart_accepted_counterexample :
    (postSale ⟨[productA], []⟩ ⟨[], "cash", none, 0, 0⟩ cashier 100 "t1" true true).1.isCreated = true ∧
    (postSale ⟨[productA], []⟩ ⟨[], "cash", none, 0, 0⟩ cashier 100 "t1" true true).2.sales.length = 1 ∧
    (postSale ⟨[productA], []⟩ ⟨[], "cash", none, 0, 0⟩ cashier 100 "t1" true true).2.products = [productA] := by
  have hcash : ¬(("cash" : String) = "") := by decide
  norm_num [hcash, postSale, validSaleRequest, priceItems, decrementStock, applyLine,
    maxSaleId, productA, cashier, SaleResponse.isCreated]

/-- Claim C2 as amended: the server accepts an empty cart; no product
stock changes, and a sale with zero items, subtotal 0 and
total = 0 - discount + tax is appended to the history (no EmptyCart
error exists in the code; only the Billing page blocks empty-cart
submission client-side). -/
theorem empty_cart_commit_behaviour (disk : Disk) (pm : String) (cn : Option String)
    (d t : Rat) (user : Identity) (now : Int) (ns : String)
    (hpm : pm ≠ "") (hd : 0 ≤ d) (ht : 0 ≤ t) :
    (postSale disk ⟨[], pm, cn, d, t⟩ user now ns true true).2.products = disk.products ∧
    ∃ sale, (postSale disk ⟨[], pm, cn, d, t⟩ user now ns true true).1 = .created sale ∧
      sale.items = [] ∧ sale.subtotal = 0 ∧ sale.total = 0 - d + t ∧
      (postSale disk ⟨[], pm, cn, d, t⟩ user now ns true true).2.sales = disk.sales ++ [sale] := by
  have hv : validSaleRequest ⟨[], pm, cn, d, t⟩ = true := by
    simp [validSaleRequest, hpm, hd, ht]
  refine ⟨?_, ?_⟩
  · simp [postSale, hv, priceItems, decrementStock]
  · refine ⟨Sale.mk (maxSaleId disk.sales + 1) [] 0 d t (0 - d + t) pm
      (cn.getD "Walk-in Customer") user.id user.username now, ?_, rfl, rfl, rfl, ?_⟩ <;>
    simp [postSale, hv, priceItems, decrementStock]

/-- Claim C2 witness: the amended statement instantiated on a concrete
store with one product and an empty history. -/
theorem empty_cart_commit_behaviour_witness :
    (("cash" : String) ≠ "") ∧ ((0 : Rat) ≤ 0) ∧
    ((postSale ⟨[productA], []⟩ ⟨[], "cash", none, 0, 0⟩ cashier 100 "t1" true true).2.products
        = (Disk.mk [productA] []).products ∧
      ∃ sale, (postSale ⟨[productA], []⟩ ⟨[], "cash", none, 0, 0⟩ cashier 100 "t1" true true).1 = .created sale ∧
        sale.items = [] ∧ sale.subtotal = 0 ∧ sale.total = 0 - 0 + 0 ∧
        (postSale ⟨[productA], []⟩ ⟨[], "cash", none, 0, 0⟩ cashier 100 "t1" true true).2.sales
          = (Disk.mk [productA] []).sales ++ [sale]) :=
  ⟨by decide, le_refl 0,
    empty_cart_commit_behaviour ⟨[productA], []⟩ "cash" none 0 0 cashier 100 "t1"
      (by decide) (le_refl 0) (le_refl 0)⟩

/-- Claim C3: the spec requires the two halves of a commit to be durable
together, a PersistenceError implying neither took effect. The handler
performs two sequential writes; when the products.json write succeeds
and the sales.json write fails, the caller sees the 500 error yet the
persisted state has the stock decremented (5 to 2) with no sale
recorded — exactly the half-applied outcome the claim rules out. -/
theorem sales_write_failure_half_applied :
    (postSale ⟨[productA], []⟩ ⟨[⟨1, 3⟩], "cash", none, 0, 0⟩ cashier 100 "t1" true false).1 = .serverError ∧
    (postSale ⟨[productA], []⟩ ⟨[⟨1, 3⟩], "cash", none, 0, 0⟩ cashier 100 "t1" true false).2.products.map Product.stock = [2] ∧
    (postSale ⟨[productA], []⟩ ⟨[⟨1, 3⟩], "cash", none, 0, 0⟩ cashier 100 "t1" true false).2.sales = [] := by
  have hcash : ¬(("cash" : String) = "") := by decide
  norm_num [hcash, postSale, validSaleRequest, priceItems, decrementStock, applyLine,
    maxSaleId, productA, cashier]

/-- Claim C4 counterexample: the insufficient-stock rejection carries
only the product's display name. Three runs — requested 3 against
available 2, requested 4 against available 1, and a product with a
different id but the same name — produce the identical error value, so
the error determines neither the product id, nor the requested, nor the
available quantity. -/
theorem insufficient_stock_payload_counterexample :
    (postSale ⟨[productB], []⟩ ⟨[⟨1, 3⟩], "cash", none, 0, 0⟩ cashier 100 "t1" true true).1
      = .badRequest (.insufficientStock "Widget") ∧
    (postSale ⟨[productB1], []⟩ ⟨[⟨1, 4⟩], "cash", none, 0, 0⟩ cashier 100 "t1" true true).1
      = .badRequest (.insufficientStock "Widget") ∧
    (postSale ⟨[productNine], []⟩ ⟨[⟨9, 4⟩], "cash", none, 0, 0⟩ cashier 100 "t1" true true).1
      = .badRequest (.insufficientStock "Widget") ∧
    ((1, 3, 2) : Int × Int × Int) ≠ (9, 4, 1) := by
  have hcash : ¬(("cash" : String) = "") := by decide
  norm_num [hcash, postSale, validSaleRequest, priceItems, productB, productB1,
    productNine, productA, cashier]

/-- Claim C4 as amended (Scenario B): with stock 2 and a requested
quantity of 3, the commit fails with the insufficient-stock error
carrying the product's name, and the store is left unchanged — the
stock remains 2 and no sale is appended. -/
theorem scenarioB_insufficient_stock :
    (postSale ⟨[productB], []⟩ ⟨[⟨1, 3⟩], "cash", none, 0, 0⟩ cashier 100 "t1" true true).1
      = .badRequest (.insufficientStock "Widget") ∧
    (postSale ⟨[productB], []⟩ ⟨[⟨1, 3⟩], "cash", none, 0, 0⟩ cashier 100 "t1" true true).2
      = ⟨[productB], []⟩ := by
  have hcash : ¬(("cash" : String) = "") := by decide
  norm_num [hcash, postSale, validSaleRequest, priceItems, productB, productA, cashier]

end Retail

namespace Retail

/-- Claim C5 (Scenario A): pricing the cart of one line of product 1 at
quantity 3 against price 10.00 with discountPercent 10 and taxPercent 5
yields subtotal 30.00, discountAmount 3.00 (= subtotal * 10 / 100),
taxableAmount 27.00 (= subtotal - discountAmount), taxAmount 1.35
(= taxableAmount * 5 / 100) and total 28.35 (= taxableAmount +
taxAmount); committing the request the Billing page builds from these
figures records exactly that sale and leaves the product's stock at 2. -/
theorem scenarioA_pricing_and_commit :
    billingSubtotal cartA = 30 ∧
    discountAmount 30 10 = 3 ∧
    taxableAmount 30 10 = 27 ∧
    taxAmount 30 10 5 = 1.35 ∧
    billingTotal 30 10 5 = 28.35 ∧
    postSale ⟨[productA], []⟩ (billingSaleRequest cartA none "cash" 10 5) cashier 100 "t1" true true
      = (.created saleA,
         ⟨[{ productA with stock := 2, lastUpdated := "t1" }], [saleA]⟩) := by
  refine ⟨by norm_num [billingSubtotal, cartA], by norm_num [discountAmount],
    by norm_num [taxableAmount, discountAmount],
    by norm_num [taxAmount, taxableAmount, discountAmount],
    by norm_num [billingTotal, taxAmount, taxableAmount, discountAmount], ?_⟩
  norm_num [postSale, validSaleRequest, priceItems, decrementStock, applyLine, maxSaleId,
    billingSaleRequest, billingSubtotal, discountAmount, taxableAmount, taxAmount,
    productA, cartA, saleA, cashier, Sale.mk.injEq, Product.mk.injEq]
  decide

/-- Claim C6: the analytics date filter with both bounds supplied keeps
exactly the sales with startDate <= createdAt <= endDate (inclusive on
both ends), keeps the whole history when the bounds are omitted, and
the aggregation reports totalSales as the sum of the kept sales' total
fields and totalTransactions as their count. -/
theorem aggregate_filter_and_totals (products : List Product) (categories : List Category)
    (sales : List Sale) (s e : Int) :
    (∀ sale, sale ∈ filterSales sales (some s) (some e) ↔
        sale ∈ sales ∧ s ≤ sale.createdAt ∧ sale.createdAt ≤ e) ∧
    filterSales sales none none = sales ∧
    (∀ sd ed, (aggregate products categories sales sd ed).totalSales
        = ((filterSales sales sd ed).map Sale.total).sum ∧
      (aggregate products categories sales sd ed).totalTransactions
        = (filterSales sales sd ed).length) := by
  refine ⟨?_, rfl, ?_⟩
  · intro sale
    simp [filterSales, List.mem_filter, and_assoc]
  · intro sd ed
    refine ⟨?_, rfl⟩
    show totalSales _ = _
    rw [totalSales, List.sum_eq_foldl]

/-- Claim C7: topProducts accumulates quantity and total per productId —
every returned entry's pair (quantity, total) is the sum over the line
items carrying that product id, and entries have pairwise distinct
ids — is sorted by accumulated quantity descending, and holds at most
10 entries. The result is a pure function of the filtered history, so
the order is deterministic: the tie-break is the ascending-product-id
enumeration order of the accumulator object, preserved by the stable
sort. -/
theorem topProducts_spec (filtered : List Sale) :
    (topProducts filtered).length ≤ 10 ∧
    (topProducts filtered).Pairwise (fun a b => b.2.quantity ≤ a.2.quantity) ∧
    (topProducts filtered).Pairwise (fun a b => a.1 ≠ b.1) ∧
    ∀ pid agg, (pid, agg) ∈ topProducts filtered →
      (agg.quantity, agg.total) = lineSum pid (itemsOf filtered) := by
  have hsorted : List.Pairwise qOrder (sortByQuantityDesc (productSales filtered)) :=
    List.sorted_insertionSort qOrder (productSales filtered)
  have hperm : List.Perm (sortByQuantityDesc (productSales filtered)) (productSales filtered) :=
    List.perm_insertionSort qOrder (productSales filtered)
  have hkeys : List.Pairwise (fun a b : Int × ProductAgg => a.1 < b.1) (productSales filtered) :=
    keysSorted_foldl _ _ List.Pairwise.nil
  have hne : List.Pairwise (fun a b : Int × ProductAgg => a.1 ≠ b.1) (productSales filtered) :=
    hkeys.imp (fun h => ne_of_lt h)
  have hneSorted : List.Pairwise (fun a b : Int × ProductAgg => a.1 ≠ b.1)
      (sortByQuantityDesc (productSales filtered)) :=
    (hperm.pairwise_iff (fun h => Ne.symm h)).mpr hne
  refine ⟨List.length_take_le _ _, ?_, ?_, ?_⟩
  · exact List.Pairwise.sublist (List.take_sublist _ _) hsorted
  · exact List.Pairwise.sublist (List.take_sublist _ _) hneSorted
  · intro pid agg hmem
    have h1 : (pid, agg) ∈ sortByQuantityDesc (productSales filtered) :=
      List.mem_of_mem_take hmem
    have h2 : (pid, agg) ∈ productSales filtered := hperm.mem_iff.mp h1
    have h3 := aggOf_of_mem _ pid agg h2 hne
    have h4 : aggOf (productSales filtered) pid = lineSum pid (itemsOf filtered) := by
      rw [productSales, aggOf_foldl, aggOf_nil, zero_add]
    rw [← h3, h4]

/-- Claim C7 witness: the accumulation conjunct instantiated on a
one-sale history whose only line item is product 7 at quantity 3. -/
theorem topProducts_spec_witness :
    ((7 : Int), (⟨"Gadget", 3, 6⟩ : ProductAgg)) ∈ topProducts [saleW] ∧
    (((⟨"Gadget", 3, 6⟩ : ProductAgg).quantity, (⟨"Gadget", 3, 6⟩ : ProductAgg).total)
      = lineSum 7 (itemsOf [saleW])) :=
  ⟨by decide, (topProducts_spec [saleW]).2.2.2 7 ⟨"Gadget", 3, 6⟩ (by decide)⟩

/-- Claim C8: aggregation never fails — a line item whose productId does
not resolve to an existing product contributes nothing to
salesByCategory and raises no error, and aggregating an empty history
returns zero totals and empty mappings. -/
theorem analytics_skips_missing_product (products : List Product)
    (categories : List Category) (m : List (String × Rat)) (item : SaleItem)
    (sd ed : Option Int)
    (h : products.find? (fun p => p.id == item.productId) = none) :
    categoryStep products categories m item = m ∧
    aggregate products categories [] sd ed =
      { totalSales := 0, totalTransactions := 0, salesByCategory := [], topProducts := [] } := by
  constructor
  · simp [categoryStep, h]
  · cases sd <;> cases ed <;> rfl

/-- Claim C8 witness: the skip behaviour at a dangling line item whose
product id 99 is absent from a one-product catalog, plus the empty
history case. -/
theorem analytics_skips_missing_product_witness :
    (List.find? (fun p => p.id == (99 : Int)) [productA] = none) ∧
    (categoryStep [productA] [] [] ⟨99, "Gone", "G9", 5, 1, 5⟩ = [] ∧
      aggregate [productA] [] [] none none =
        { totalSales := 0, totalTransactions := 0, salesByCategory := [], topProducts := [] }) :=
  ⟨rfl, analytics_skips_missing_product [productA] [] [] ⟨99, "Gone", "G9", 5, 1, 5⟩ none none rfl⟩

/-- Claim C9: an accepted commit assigns the new sale the identifier
max(existing ids) + 1, which is 1 on an empty history, is strictly
greater than every existing identifier (so ids are unique, strictly
increasing across commits and never reused), and appends the sale to
the end of the history. -/
theorem sale_id_fresh (disk : Disk) (req : SaleRequest) (user : Identity)
    (now : Int) (ns : String) (oP oS : Bool) (sale : Sale) (disk2 : Disk)
    (h : postSale disk req user now ns oP oS = (.created sale, disk2)) :
    sale.id = maxSaleId disk.sales + 1 ∧
    (disk.sales = [] → sale.id = 1) ∧
    (∀ s ∈ disk.sales, s.id < sale.id) ∧
    sale.id ∉ disk.sales.map Sale.id ∧
    disk2.sales = disk.sales ++ [sale] := by
  unfold postSale at h
  split at h
  · simp at h
  · split at h
    · simp at h
    · split at h
      · split at h
        · rw [Prod.mk.injEq] at h
          obtain ⟨h1, h2⟩ := h
          rw [SaleResponse.created.injEq] at h1
          subst h1
          subst h2
          refine ⟨rfl, ?_, ?_, ?_, rfl⟩
          · intro he
            simp [he, maxSaleId]
          · intro s hs
            have hle := le_maxSaleId disk.sales s hs
            dsimp only
            omega
          · intro hmem
            dsimp only at hmem
            have hle := le_foldl_max (disk.sales.map Sale.id) 0 _ hmem
            have h0 : maxSaleId disk.sales = (disk.sales.map Sale.id).foldl max 0 := rfl
            omega
        · simp at h
      · simp at h

/-- Claim C9 witness: freshness instantiated on the concrete accepted
commit of `postSale_simple_eq`, whose history was empty. -/
theorem sale_id_fresh_witness :
    saleSimple.id = maxSaleId ([] : List Sale) + 1 ∧
    (([] : List Sale) = [] → saleSimple.id = 1) ∧
    (∀ s ∈ ([] : List Sale), s.id < saleSimple.id) ∧
    saleSimple.id ∉ ([] : List Sale).map Sale.id ∧
    (Disk.mk [{ productA with stock := 2, lastUpdated := "t1" }] [saleSimple]).sales
      = ([] : List Sale) ++ [saleSimple] :=
  sale_id_fresh ⟨[productA], []⟩ ⟨[⟨1, 3⟩], "cash", none, 0, 0⟩ cashier 100 "t1" true true
    saleSimple ⟨[{ productA with stock := 2, lastUpdated := "t1" }], [saleSimple]⟩
    postSale_simple_eq

/-- Claim C10: discount and tax are caller-supplied absolute amounts
validated only to be non-negative — not percentages and not bounded by
the subtotal — and the recorded total is subtotal - discount + tax, so
a request with discount 100 against a subtotal of 10 and tax 0 is
accepted and commits a sale whose total is -90, strictly negative. -/
theorem negative_total_sale_accepted :
    validSaleRequest ⟨[⟨1, 1⟩], "cash", none, 100, 0⟩ = true ∧
    (100 : Rat) > 10 + 0 ∧
    (postSale ⟨[productA], []⟩ ⟨[⟨1, 1⟩], "cash", none, 100, 0⟩ cashier 100 "t1" true true).1.isCreated = true ∧
    (postSale ⟨[productA], []⟩ ⟨[⟨1, 1⟩], "cash", none, 100, 0⟩ cashier 100 "t1" true true).2.sales.map Sale.total = [10 - 100 + 0] ∧
    (10 - 100 + 0 : Rat) < 0 := by
  have hcash : ¬(("cash" : String) = "") := by decide
  norm_num [hcash, postSale, validSaleRequest, priceItems, decrementStock, applyLine,
    maxSaleId, productA, cashier, SaleResponse.isCreated]

end Retail
